import Mathlib

/-!
Shallow embedding of the caption compiler and render pipeline of the
video-to-text repository: the subtitle format encoders of the shared
utilities module (formatSRTTime, formatVTTTime, formatASSTime,
generateSRTContent, generateVTTContent, generateASSContent) and the
render-video route handler (POST of app/api/render-video/route.ts).

JavaScript numbers are modelled as exact rationals; every input the claims
exercise (seconds such as 1.5 or 3.25, opacities such as 0.7, integral font
sizes and percentages) is exactly representable in binary floating point, so
the runtime's rounding does not enter.  JavaScript operators are modelled
faithfully: the remainder operator truncates toward zero with the sign of
the dividend, Math.floor is the rational floor, Math.round rounds half
toward positive infinity, and string helpers (padStart, substring, trim,
split, includes) follow the ECMAScript definitions on the character lists
underlying Lean strings.
-/

namespace VideoToText

/-- JavaScript truncation toward zero: the quotient underlying the
remainder operator on numbers. -/
def jsTrunc (q : ℚ) : ℤ := if 0 ≤ q then ⌊q⌋ else ⌈q⌉

/-- JavaScript remainder `a % b` on numbers: truncated-division remainder,
sign following the dividend. -/
def jsFmod (a b : ℚ) : ℚ := a - b * (jsTrunc (a / b) : ℚ)

/-- JavaScript `Math.round`: round half toward positive infinity. -/
def jsRound (q : ℚ) : ℤ := ⌊q + 1 / 2⌋

/-- JavaScript `padStart(len, c)` on a string. -/
def padStart (s : String) (len : Nat) (c : Char) : String :=
  String.mk (List.replicate (len - s.length) c) ++ s

/-- JavaScript `toString(16)` on an integral number value: lowercase hex
digits, a leading minus sign for negatives. -/
def jsToHexString (i : ℤ) : String :=
  if i < 0 then "-" ++ String.mk (Nat.toDigits 16 (-i).toNat)
  else String.mk (Nat.toDigits 16 i.toNat)

/-- JavaScript `toUpperCase` restricted to ASCII, on the character list. -/
def jsToUpper (s : String) : String := String.mk (s.data.map Char.toUpper)

/-- JavaScript `substring(a, b)` on a string, for `a ≤ b` (clamped to the
string length, as in ECMAScript). -/
def jsSubstring (s : String) (a b : Nat) : String :=
  String.mk ((s.data.take b).drop a)

/-- Whitespace stripped by JavaScript `trim` (restricted to the ASCII
whitespace that can occur in the inputs at hand). -/
def isJsWhitespace (c : Char) : Bool :=
  c = ' ' || c = '\t' || c = '\n' || c = '\r'

/-- JavaScript `trim`: drop leading and trailing whitespace. -/
def jsTrim (s : String) : String :=
  String.mk (List.rdropWhile isJsWhitespace (s.data.dropWhile isJsWhitespace))

/-- Containment of one character list in another at any position. -/
def containsSub (sub : List Char) : List Char → Bool
  | [] => sub.isEmpty
  | c :: rest => sub.isPrefixOf (c :: rest) || containsSub sub rest

/-- JavaScript `includes` on strings: substring containment. -/
def jsIncludes (s sub : String) : Bool := containsSub sub.data s.data

/-- Removal of the first occurrence of a character, as in JavaScript
`replace` with a plain one-character string pattern. -/
def removeFirst (c : Char) : List Char → List Char
  | [] => []
  | x :: xs => if x = c then xs else x :: removeFirst c xs

/-- Replacement of every line break with a single space, as performed by the
regular expression the encoders use: the alternatives CRLF, LF and CR are
matched left to right, each occurrence replaced by one space. -/
def replaceLineBreaks : List Char → List Char
  | [] => []
  | '\r' :: '\n' :: rest => ' ' :: replaceLineBreaks rest
  | x :: xs =>
    if x = '\r' || x = '\n' then ' ' :: replaceLineBreaks xs
    else x :: replaceLineBreaks xs

/-- Text preprocessing applied by the SRT and ASS encoders: collapse line
breaks to spaces, then trim. -/
def cleanText (s : String) : String :=
  jsTrim (String.mk (replaceLineBreaks s.data))

/-- JavaScript `map` with the element index as second callback argument,
embedded with an explicit running index. -/
def mapWithIndex (f : Nat → α → β) : Nat → List α → List β
  | _, [] => []
  | i, a :: l => f i a :: mapWithIndex f (i + 1) l

/-- Transcription segment shape shared by the encoders (id, start and end
offsets in seconds, text). -/
structure TranscriptionSegment where
  id : String
  start : ℚ
  «end» : ℚ
  text : String

/-- Subtitle style shape from the subtitle controls component. -/
structure SubtitleStyle where
  fontSize : ℤ
  fontFamily : String
  color : String
  backgroundColor : String
  opacity : ℚ
  bold : Bool
  italic : Bool
  alignment : String
  position : String
  noBackground : Bool
  customPosition : Bool
  xPosition : ℚ
  yPosition : ℚ

/-- Initial style of the page component (fontSize 20, Arial, white text on a
black box of opacity 0.7, centered at the bottom). -/
def defaultStyle : SubtitleStyle where
  fontSize := 20
  fontFamily := "Arial, sans-serif"
  color := "#FFFFFF"
  backgroundColor := "#000000"
  opacity := 7 / 10
  bold := false
  italic := false
  alignment := "center"
  position := "bottom"
  noBackground := false
  customPosition := false
  xPosition := 50
  yPosition := 90

/-- Source formatSRTTime: seconds to `HH:MM:SS,mmm`, fields by floor
division, zero-padded to 2, 2, 2 and 3 digits. -/
def formatSRTTime (seconds : ℚ) : String :=
  let hours : ℤ := ⌊seconds / 3600⌋
  let minutes : ℤ := ⌊jsFmod seconds 3600 / 60⌋
  let secs : ℤ := ⌊jsFmod seconds 60⌋
  let ms : ℤ := ⌊jsFmod seconds 1 * 1000⌋
  padStart (toString hours) 2 '0' ++ ":" ++ padStart (toString minutes) 2 '0'
    ++ ":" ++ padStart (toString secs) 2 '0' ++ "," ++ padStart (toString ms) 3 '0'

/-- Source formatVTTTime: as formatSRTTime with a dot before the
milliseconds. -/
def formatVTTTime (seconds : ℚ) : String :=
  let hours : ℤ := ⌊seconds / 3600⌋
  let minutes : ℤ := ⌊jsFmod seconds 3600 / 60⌋
  let secs : ℤ := ⌊jsFmod seconds 60⌋
  let ms : ℤ := ⌊jsFmod seconds 1 * 1000⌋
  padStart (toString hours) 2 '0' ++ ":" ++ padStart (toString minutes) 2 '0'
    ++ ":" ++ padStart (toString secs) 2 '0' ++ "." ++ padStart (toString ms) 3 '0'

/-- Source formatASSTime: seconds to `H:MM:SS.CC` at centisecond precision,
hours not padded. -/
def formatASSTime (seconds : ℚ) : String :=
  let hours : ℤ := ⌊seconds / 3600⌋
  let minutes : ℤ := ⌊jsFmod seconds 3600 / 60⌋
  let secs : ℤ := ⌊jsFmod seconds 60⌋
  let centisecs : ℤ := ⌊jsFmod seconds 1 * 100⌋
  toString hours ++ ":" ++ padStart (toString minutes) 2 '0' ++ ":"
    ++ padStart (toString secs) 2 '0' ++ "." ++ padStart (toString centisecs) 2 '0'

/-- Source generateSRTContent: 1-indexed blocks, timestamps joined by an
arrow, cleaned text, blocks joined with a blank line. -/
def generateSRTContent (segments : List TranscriptionSegment) : String :=
  String.intercalate ("\n") (mapWithIndex (fun index segment =>
    toString (index + 1) ++ "\n" ++ formatSRTTime segment.start ++ " --> "
      ++ formatSRTTime segment.«end» ++ "\n" ++ cleanText segment.text ++ "\n")
    0 segments)

/-- Source generateVTTContent: WEBVTT header, then cues without an index
line; the segment text is emitted as is. -/
def generateVTTContent (segments : List TranscriptionSegment) : String :=
  "WEBVTT\n\n" ++ String.intercalate ("\n") (segments.map (fun segment =>
    formatVTTTime segment.start ++ " --> " ++ formatVTTTime segment.«end»
      ++ "\n" ++ segment.text ++ "\n"))

/-- Source convertColorToASS (local to generateASSContent): strip the first
hash, slice the red, green and blue hex pairs, and re-emit alpha-blue-green-red
behind an ampersand-H prefix.  No validation of length or hex digits. -/
def convertColorToASS (cssHex : String) (alpha : String) : String :=
  let hex := String.mk (removeFirst '#' cssHex.data)
  let r := jsSubstring hex 0 2
  let g := jsSubstring hex 2 4
  let b := jsSubstring hex 4 6
  "&H" ++ alpha ++ b ++ g ++ r

/-- Source bgAlphaHex: fully transparent when noBackground, otherwise the
rounded complement of the opacity in 2-digit uppercase hex. -/
def bgAlphaHex (style : SubtitleStyle) : String :=
  if style.noBackground then "FF"
  else jsToUpper (padStart (jsToHexString (jsRound ((1 - style.opacity) * 255))) 2 '0')

/-- Source textColor: the style's text color, fully opaque. -/
def textColor (style : SubtitleStyle) : String :=
  convertColorToASS style.color ("00")

/-- Source outlineColor: the style's background color, fully opaque. -/
def outlineColor (style : SubtitleStyle) : String :=
  convertColorToASS style.backgroundColor ("00")

/-- Source shadowColor: the style's background color with the derived
background alpha. -/
def shadowColor (style : SubtitleStyle) : String :=
  convertColorToASS style.backgroundColor (bgAlphaHex style)

/-- Canonical canvas width fixed by the encoder. -/
def videoWidth : ℤ := 1280

/-- Canonical canvas height fixed by the encoder. -/
def videoHeight : ℤ := 720

/-- Source alignment computation: default bottom center, shifted by the
style's alignment and position unless custom positioning is on. -/
def assAlignment (style : SubtitleStyle) : String :=
  if !style.customPosition then
    let a1 := if style.alignment = "left" then "1" else "2"
    let a2 := if style.alignment = "right" then "3" else a1
    if style.position = "top" then
      if a2 = "1" then "7" else if a2 = "2" then "8"
      else if a2 = "3" then "9" else a2
    else a2
  else "2"

/-- Source bold flag: 0/1. -/
def boldFlag (style : SubtitleStyle) : String := if style.bold then "1" else "0"

/-- Source italic flag: 0/1. -/
def italicFlag (style : SubtitleStyle) : String := if style.italic then "1" else "0"

/-- Source fontName: first comma-separated entry of the font family (the
head of the split is the prefix before the first comma), trimmed,
apostrophes removed (character code 39). -/
def fontNameOf (style : SubtitleStyle) : String :=
  String.mk ((jsTrim (String.mk
    (style.fontFamily.data.takeWhile (fun c => !(c = ','))))).data.filter
    (fun c => !(c = Char.ofNat 39)))

/-- Source outlineSize: small fixed outline without a background, otherwise
padding proportional to the font size. -/
def outlineSize (style : SubtitleStyle) : String :=
  if style.noBackground then "1"
  else toString (max 1 (jsRound ((style.fontSize : ℚ) * (75 / 1000))))

/-- Source borderStyle: 1 is outline, 3 is opaque box. -/
def borderStyle (style : SubtitleStyle) : String :=
  if style.noBackground then "1" else "3"

/-- Source shadowSize: a small drop shadow only in text-only mode. -/
def shadowSize (style : SubtitleStyle) : String :=
  if style.noBackground then "1" else "0"

/-- Source marginV: vertical margin by position. -/
def marginV (style : SubtitleStyle) : String :=
  if style.position = "bottom" then "20" else "50"

/-- Source header of the generated ASS document: script info and the single
computed style line. -/
def assHeader (style : SubtitleStyle) : String :=
  "[Script Info]\nScriptType: v4.00+\nPlayResX: " ++ toString videoWidth
    ++ "\nPlayResY: " ++ toString videoHeight
    ++ "\nScaledBorderAndShadow: yes\n\n[V4+ Styles]\nFormat: Name, Fontname, Fontsize, PrimaryColour, SecondaryColour, OutlineColour, BackColour, Bold, Italic, Underline, StrikeOut, ScaleX, ScaleY, Spacing, Angle, BorderStyle, Outline, Shadow, Alignment, MarginL, MarginR, MarginV, Encoding\n; Style with a CSS-like box background\nStyle: Default,"
    ++ fontNameOf style ++ "," ++ toString style.fontSize ++ "," ++ textColor style
    ++ "," ++ textColor style ++ "," ++ outlineColor style ++ "," ++ shadowColor style
    ++ "," ++ boldFlag style ++ "," ++ italicFlag style ++ ",0,0,100,100,0,0,"
    ++ borderStyle style ++ "," ++ outlineSize style ++ "," ++ shadowSize style
    ++ "," ++ assAlignment style ++ ",10,10," ++ marginV style
    ++ ",1\n\n[Events]\nFormat: Layer, Start, End, Style, Name, MarginL, MarginR, MarginV, Effect, Text\n"

/-- Source horizontal pixel position for custom placement. -/
def xPosOf (style : SubtitleStyle) : ℤ :=
  jsRound (style.xPosition / 100 * (videoWidth : ℚ))

/-- Source vertical pixel position for custom placement. -/
def yPosOf (style : SubtitleStyle) : ℤ :=
  jsRound (style.yPosition / 100 * (videoHeight : ℚ))

/-- Source styleOverrides list: a shadow tag in text-only mode, then a
position tag and centered-anchor tag in custom-position mode. -/
def styleOverrides (style : SubtitleStyle) : List String :=
  (if style.noBackground then ["\\shad1"] else []) ++
    (if style.customPosition then
      ["\\pos(" ++ toString (xPosOf style) ++ "," ++ toString (yPosOf style) ++ ")",
        "\\an5"]
    else [])

/-- Source styleOverrideString: the overrides joined and wrapped in braces,
empty when there are none. -/
def styleOverrideString (style : SubtitleStyle) : String :=
  if (styleOverrides style).length > 0 then
    "\x7b" ++ String.join (styleOverrides style) ++ "\x7d"
  else ""

/-- Source dialogue event line for one segment. -/
def assDialogueLine (style : SubtitleStyle) (segment : TranscriptionSegment) : String :=
  "Dialogue: 0," ++ formatASSTime segment.start ++ "," ++ formatASSTime segment.«end»
    ++ ",Default,,0,0,0,," ++ styleOverrideString style ++ cleanText segment.text

/-- Source events block: one dialogue line per segment, newline-joined. -/
def assEvents (segments : List TranscriptionSegment) (style : SubtitleStyle) : String :=
  String.intercalate ("\n") (segments.map (assDialogueLine style))

/-- Source generateASSContent: header followed by the events. -/
def generateASSContent (segments : List TranscriptionSegment) (style : SubtitleStyle) :
    String :=
  assHeader style ++ assEvents segments style

/-!
Render route model.  The POST handler of app/api/render-video/route.ts is a
sequence of effectful steps inside one try/catch.  The embedding makes the
outcome of every effect an input (the environment below): for each
filesystem or process step, `none` means the awaited promise resolved and
`some msg` means it rejected with an error whose message is `msg` (for the
external encoder invocation this covers both a missing binary and a nonzero
exit, which reach the handler as the same kind of rejected promise).  The
result records the response together with the observable state the claims
talk about: whether the job's workspace directory still exists when the
handler returns, whether its removal was merely scheduled (the success path
calls rm without awaiting it, so at return time the directory has not yet
been removed), which staged video filename was used, which subtitle
contents were produced, and whether the external process was invoked.  The
catch clause awaits rm with force, which cannot reject on a missing
directory; best-effort removal is modelled as always succeeding.
-/

/-- Node path.extname restricted to forward-slash paths: the basename's
suffix from its last dot, empty when there is no dot or the only dot leads
the basename. -/
def extSuffix : List Char → Option (List Char)
  | [] => none
  | c :: rest =>
    match extSuffix rest with
    | some e => some e
    | none => if c = '.' then some (c :: rest) else none

/-- Basename part of extname: characters after the last slash. -/
def afterLastSlash : List Char → List Char
  | [] => []
  | c :: rest =>
    if c = '/' then afterLastSlash rest
    else if rest.contains '/' then afterLastSlash rest
    else c :: rest

/-- Node path.extname on a filename. -/
def extname (name : String) : String :=
  match afterLastSlash name.data with
  | [] => ""
  | _ :: rest =>
    match extSuffix rest with
    | some e => String.mk e
    | none => ""

/-- JavaScript logical-or on strings: the right operand when the left is
empty (falsy), the left otherwise. -/
def jsOrString (a b : String) : String := if a = "" then b else a

/-- Staged input filename computed by the route: the JavaScript expression
parses as ("input" + extname(name)) or-else ".mp4", and the left operand is
never empty. -/
def stagedVideoName (name : String) : String :=
  jsOrString ("input" ++ extname name) ".mp4"

/-- Environment of one request: the request payload and the outcome of each
awaited effect. -/
structure RenderEnv where
  videoFile : Option String
  subtitleStyleStr : Bool
  segmentsStr : Bool
  subtitlesEnabled : Bool
  parseError : Option String
  style : SubtitleStyle
  segments : List TranscriptionSegment
  mkdirError : Option String
  writeVideoError : Option String
  writeSrtError : Option String
  writeAssError : Option String
  execError : Option String
  readError : Option String

/-- Response returned by the handler: a JSON error with a status, or the
rendered video bytes (content type video/mp4, fixed download filename). -/
inductive RouteResponse
  | jsonError (message : String) (status : Nat)
  | videoBytes
deriving DecidableEq

/-- Truth of a response being an error. -/
def RouteResponse.isError : RouteResponse → Bool
  | .jsonError _ _ => true
  | .videoBytes => false

/-- Observable outcome of one request. -/
structure RouteResult where
  response : RouteResponse
  tempDirExists : Bool
  cleanupScheduled : Bool
  stagedName : Option String
  srtContent : Option String
  assContent : Option String
  execInvoked : Bool
deriving DecidableEq

/-- Fixed message of the missing-data rejection. -/
def missingDataMessage : String := "Missing required data for video rendering"

/-- Fixed message of the ffmpeg guidance response. -/
def ffmpegGuidanceMessage : String :=
  "Error processing video. Make sure FFmpeg is installed on the server."

/-- Fixed fallback message of the generic error response. -/
def genericErrorMessage : String := "An error occurred during video rendering"

/-- Early 400 rejection for missing form data: returned from inside the try
block before the workspace directory is created. -/
def missingDataResult : RouteResult where
  response := .jsonError missingDataMessage 400
  tempDirExists := false
  cleanupScheduled := false
  stagedName := none
  srtContent := none
  assContent := none
  execInvoked := false

/-- Success result: the video bytes are returned while the workspace
removal has been started but not awaited. -/
def successResult (staged srt ass : String) : RouteResult where
  response := .videoBytes
  tempDirExists := true
  cleanupScheduled := true
  stagedName := some staged
  srtContent := some srt
  assContent := some ass
  execInvoked := true

/-- Catch clause of the handler: await rm of the workspace (best effort),
then pick the response by whether the error message mentions ffmpeg. -/
def catchResult (msg : String) (staged : Option String) (srt ass : Option String)
    (execInvoked : Bool) : RouteResult where
  response :=
    if jsIncludes msg ("ffmpeg") then .jsonError ffmpegGuidanceMessage 500
    else .jsonError (jsOrString msg genericErrorMessage) 500
  tempDirExists := false
  cleanupScheduled := false
  stagedName := staged
  srtContent := srt
  assContent := ass
  execInvoked := execInvoked

/-- Source POST handler of the render route, step by step: presence check of
the form fields, JSON parsing, workspace creation, staging of the video,
generation and writing of the SRT and ASS subtitle files, external encoder
invocation, read-back of the output, non-awaited cleanup, response. -/
def POST (env : RenderEnv) : RouteResult :=
  match env.videoFile with
  | none => missingDataResult
  | some file =>
    if !env.subtitleStyleStr || !env.segmentsStr || !env.subtitlesEnabled then
      missingDataResult
    else
      match env.parseError with
      | some msg => catchResult msg none none none false
      | none =>
        match env.mkdirError with
        | some msg => catchResult msg none none none false
        | none =>
          let staged := stagedVideoName file
          match env.writeVideoError with
          | some msg => catchResult msg (some staged) none none false
          | none =>
            let srt := generateSRTContent env.segments
            match env.writeSrtError with
            | some msg => catchResult msg (some staged) (some srt) none false
            | none =>
              let ass := generateASSContent env.segments env.style
              match env.writeAssError with
              | some msg => catchResult msg (some staged) (some srt) (some ass) false
              | none =>
                match env.execError with
                | some msg => catchResult msg (some staged) (some srt) (some ass) true
                | none =>
                  match env.readError with
                  | some msg =>
                    catchResult msg (some staged) (some srt) (some ass) true
                  | none => successResult staged srt ass

/-! Helper lemmas. -/

/-- Truncation agrees with the floor on nonnegative arguments. -/
theorem jsTrunc_eq_floor {q : ℚ} (h : 0 ≤ q) : jsTrunc q = ⌊q⌋ := if_pos h

/-- The JavaScript remainder is the floor-division remainder when the
dividend is nonnegative and the divisor positive. -/
theorem jsFmod_nonneg {a b : ℚ} (ha : 0 ≤ a) (hb : 0 < b) :
    jsFmod a b = a - b * ⌊a / b⌋ := by
  unfold jsFmod
  rw [jsTrunc_eq_floor (div_nonneg ha hb.le)]

/-- C1: every timestamp encoder renders the fields `hours = floor(s/3600)`,
`minutes = floor((s mod 3600)/60)`, `secs = floor(s mod 60)` and
fractional milliseconds/centiseconds, zero-padded as claimed (SRT with a
comma, VTT with a dot, ASS at centisecond precision with unpadded hours),
and on `start = 1.5, end = 3.25` the three formats produce exactly the
claimed timestamp pairs. -/
theorem srt_vtt_ass_timestamp_rendering :
    (∀ s : ℚ, 0 ≤ s →
      formatSRTTime s =
        padStart (toString ⌊s / 3600⌋) 2 '0' ++ ":"
          ++ padStart (toString ⌊(s - 3600 * ⌊s / 3600⌋) / 60⌋) 2 '0' ++ ":"
          ++ padStart (toString ⌊s - 60 * ⌊s / 60⌋⌋) 2 '0' ++ ","
          ++ padStart (toString ⌊(s - ⌊s⌋) * 1000⌋) 3 '0' ∧
      formatVTTTime s =
        padStart (toString ⌊s / 3600⌋) 2 '0' ++ ":"
          ++ padStart (toString ⌊(s - 3600 * ⌊s / 3600⌋) / 60⌋) 2 '0' ++ ":"
          ++ padStart (toString ⌊s - 60 * ⌊s / 60⌋⌋) 2 '0' ++ "."
          ++ padStart (toString ⌊(s - ⌊s⌋) * 1000⌋) 3 '0' ∧
      formatASSTime s =
        toString ⌊s / 3600⌋ ++ ":"
          ++ padStart (toString ⌊(s - 3600 * ⌊s / 3600⌋) / 60⌋) 2 '0' ++ ":"
          ++ padStart (toString ⌊s - 60 * ⌊s / 60⌋⌋) 2 '0' ++ "."
          ++ padStart (toString ⌊(s - ⌊s⌋) * 100⌋) 2 '0') ∧
    formatSRTTime (3 / 2) ++ " --> " ++ formatSRTTime (13 / 4)
      = "00:00:01,500 --> 00:00:03,250" ∧
    formatVTTTime (3 / 2) ++ " --> " ++ formatVTTTime (13 / 4)
      = "00:00:01.500 --> 00:00:03.250" ∧
    formatASSTime (3 / 2) ++ " --> " ++ formatASSTime (13 / 4)
      = "0:00:01.50 --> 0:00:03.25" := by
  refine ⟨fun s hs => ?_, ?_, ?_, ?_⟩
  · have h3600 : jsFmod s 3600 = s - 3600 * ⌊s / 3600⌋ := jsFmod_nonneg hs (by norm_num)
    have h60 : jsFmod s 60 = s - 60 * ⌊s / 60⌋ := jsFmod_nonneg hs (by norm_num)
    have h1 : jsFmod s 1 = s - ⌊s⌋ := by
      rw [jsFmod_nonneg hs one_pos, div_one, one_mul]
    refine ⟨?_, ?_, ?_⟩ <;>
      simp only [formatSRTTime, formatVTTTime, formatASSTime, h3600, h60, h1]
  · simp only [formatSRTTime, jsFmod, jsTrunc]
    norm_num
    decide
  · simp only [formatVTTTime, jsFmod, jsTrunc]
    norm_num
    decide
  · simp only [formatASSTime, jsFmod, jsTrunc]
    norm_num
    decide

/-- Witness for C1: the field decomposition applied at seconds = 1.5. -/
theorem srt_vtt_ass_timestamp_rendering_witness :
    formatSRTTime (3 / 2) =
      padStart (toString ⌊(3 / 2 : ℚ) / 3600⌋) 2 '0' ++ ":"
        ++ padStart (toString ⌊((3 / 2 : ℚ) - 3600 * ⌊(3 / 2 : ℚ) / 3600⌋) / 60⌋) 2 '0'
        ++ ":" ++ padStart (toString ⌊(3 / 2 : ℚ) - 60 * ⌊(3 / 2 : ℚ) / 60⌋⌋) 2 '0'
        ++ "," ++ padStart (toString ⌊((3 / 2 : ℚ) - ⌊(3 / 2 : ℚ)⌋) * 1000⌋) 3 '0' :=
  (srt_vtt_ass_timestamp_rendering.1 (3 / 2) (by norm_num)).1

/-- Environment with every form field present and every effect succeeding,
for a given segment list. -/
def okEnv (segs : List TranscriptionSegment) : RenderEnv where
  videoFile := some ("movie.mp4")
  subtitleStyleStr := true
  segmentsStr := true
  subtitlesEnabled := true
  parseError := none
  style := defaultStyle
  segments := segs
  mkdirError := none
  writeVideoError := none
  writeSrtError := none
  writeAssError := none
  execError := none
  readError := none

/-- Segment whose start is after its end. -/
def lateSegment : TranscriptionSegment where
  id := "segment-1"
  start := 5
  «end» := 3
  text := "Too late"

/-- Request carrying the ill-timed segment, with all effects succeeding. -/
def env7 : RenderEnv := okEnv [lateSegment]

/-- Rejection message of a missing encoder binary, as surfaced by the child
process module: it contains the templated command, hence the word ffmpeg. -/
def binaryMissingMessage : String :=
  "Command failed: ffmpeg -i input.mp4: ffmpeg: not found"

/-- Rejection message of an encoder run that exited nonzero: it also
contains the templated command. -/
def exitErrorMessage : String :=
  "Command failed: ffmpeg -i input.mp4 exited with code 1"

/-- Request in which the external encoder binary is missing. -/
def env9a : RenderEnv := { okEnv [] with execError := some binaryMissingMessage }

/-- Request in which the external encoder ran and exited nonzero. -/
def env9b : RenderEnv := { okEnv [] with execError := some exitErrorMessage }

/-- Every failure result of the catch clause reports its workspace as
removed. -/
theorem catchResult_tempDir (msg : String) (staged srt ass : Option String)
    (ex : Bool) : (catchResult msg staged srt ass ex).tempDirExists = false := rfl

/-- Every response of the catch clause is an error. -/
theorem catchResult_isError (msg : String) (staged srt ass : Option String)
    (ex : Bool) : (catchResult msg staged srt ass ex).response.isError = true := by
  simp only [catchResult]
  split <;> rfl

/-- Exhaustive shape of the handler's results: the missing-data rejection, a
caught failure, or success (in which case the external invocation and the
read-back both succeeded). -/
theorem POST_cases (env : RenderEnv) :
    POST env = missingDataResult ∨
    (∃ msg staged srt ass ex, POST env = catchResult msg staged srt ass ex) ∨
    (env.execError = none ∧ env.readError = none ∧
      ∃ staged srt ass, POST env = successResult staged srt ass) := by
  cases hv : env.videoFile with
  | none => exact Or.inl (by simp only [POST, hv])
  | some file =>
    by_cases hb : (!env.subtitleStyleStr || !env.segmentsStr
        || !env.subtitlesEnabled) = true
    · exact Or.inl (by simp only [POST, hv]; rw [if_pos hb])
    · cases hp : env.parseError with
      | some msg =>
        exact Or.inr (Or.inl ⟨msg, _, _, _, _, by
          simp only [POST, hv, hp]; rw [if_neg hb]⟩)
      | none =>
        cases hm : env.mkdirError with
        | some msg =>
          exact Or.inr (Or.inl ⟨msg, _, _, _, _, by
            simp only [POST, hv, hp, hm]; rw [if_neg hb]⟩)
        | none =>
          cases hw : env.writeVideoError with
          | some msg =>
            exact Or.inr (Or.inl ⟨msg, _, _, _, _, by
              simp only [POST, hv, hp, hm, hw]; rw [if_neg hb]⟩)
          | none =>
            cases hs : env.writeSrtError with
            | some msg =>
              exact Or.inr (Or.inl ⟨msg, _, _, _, _, by
                simp only [POST, hv, hp, hm, hw, hs]; rw [if_neg hb]⟩)
            | none =>
              cases ha : env.writeAssError with
              | some msg =>
                exact Or.inr (Or.inl ⟨msg, _, _, _, _, by
                  simp only [POST, hv, hp, hm, hw, hs, ha]; rw [if_neg hb]⟩)
              | none =>
                cases he : env.execError with
                | some msg =>
                  exact Or.inr (Or.inl ⟨msg, _, _, _, _, by
                    simp only [POST, hv, hp, hm, hw, hs, ha, he]; rw [if_neg hb]⟩)
                | none =>
                  cases hr : env.readError with
                  | some msg =>
                    exact Or.inr (Or.inl ⟨msg, _, _, _, _, by
                      simp only [POST, hv, hp, hm, hw, hs, ha, he, hr]
                      rw [if_neg hb]⟩)
                  | none =>
                    refine Or.inr (Or.inr ⟨rfl, rfl, _, _, _, by
                      simp only [POST, hv, hp, hm, hw, hs, ha, he, hr]
                      rw [if_neg hb]⟩)

/-- C2: whenever the handler returns an error response the workspace
directory is gone; on success, removal is scheduled but the directory is
still present when the bytes are returned (the rm promise is not awaited);
in particular any request whose external-process invocation fails comes
back with the workspace absent. -/
theorem workspace_cleanup_on_failure :
    (∀ env : RenderEnv, (POST env).response.isError = true →
      (POST env).tempDirExists = false) ∧
    (∀ env : RenderEnv, (POST env).response.isError = false →
      (POST env).cleanupScheduled = true ∧ (POST env).tempDirExists = true) ∧
    (∀ env : RenderEnv, ∀ msg, env.execError = some msg →
      (POST env).tempDirExists = false) := by
  refine ⟨?_, ?_, ?_⟩
  · intro env h
    rcases POST_cases env with h1 | ⟨msg, st, sr, aa, ex, h1⟩ | ⟨_, _, st, sr, aa, h1⟩
    · rw [h1]; rfl
    · rw [h1]; exact catchResult_tempDir ..
    · rw [h1] at h; exact absurd h (by simp [successResult, RouteResponse.isError])
  · intro env h
    rcases POST_cases env with h1 | ⟨msg, st, sr, aa, ex, h1⟩ | ⟨_, _, st, sr, aa, h1⟩
    · rw [h1] at h; exact absurd h (by simp [missingDataResult, RouteResponse.isError])
    · rw [h1] at h
      exact absurd h (by simp [catchResult_isError])
    · rw [h1]; exact ⟨rfl, rfl⟩
  · intro env msg hmsg
    rcases POST_cases env with h1 | ⟨m, st, sr, aa, ex, h1⟩ | ⟨he, _, st, sr, aa, h1⟩
    · rw [h1]; rfl
    · rw [h1]; exact catchResult_tempDir ..
    · rw [hmsg] at he; exact absurd he (by simp)

/-- Witness for C2: a request with a failing external encoder invocation
returns with the workspace directory absent. -/
theorem workspace_cleanup_on_failure_witness :
    env9a.execError = some binaryMissingMessage ∧
    (POST env9a).tempDirExists = false :=
  ⟨rfl, workspace_cleanup_on_failure.2.2 env9a binaryMissingMessage rfl⟩

/-- C7 counterexample: the request carrying a segment with start 5 and end
3 is not rejected: the handler succeeds, both encoders run, and the
external process is invoked. -/
theorem no_timing_validation_counterexample :
    env7.segments = [lateSegment] ∧
    lateSegment.«end» < lateSegment.start ∧
    (POST env7).response = .videoBytes ∧
    (POST env7).response.isError = false ∧
    (POST env7).execInvoked = true ∧
    (POST env7).srtContent.isSome = true ∧
    (POST env7).assContent.isSome = true :=
  ⟨rfl, by norm_num [lateSegment], rfl, rfl, rfl, rfl, rfl⟩

/-- C7 amended: the route performs no segment-timing validation at all: any
request with all form fields present whose effects succeed renders
successfully and invokes the external process, regardless of the segments'
start and end values. -/
theorem no_timing_validation_amended (env : RenderEnv) (file : String)
    (hv : env.videoFile = some file) (h1 : env.subtitleStyleStr = true)
    (h2 : env.segmentsStr = true) (h3 : env.subtitlesEnabled = true)
    (hp : env.parseError = none) (hm : env.mkdirError = none)
    (hw : env.writeVideoError = none) (hs : env.writeSrtError = none)
    (ha : env.writeAssError = none) (he : env.execError = none)
    (hr : env.readError = none) :
    (POST env).response = .videoBytes ∧ (POST env).execInvoked = true := by
  simp [POST, hv, h1, h2, h3, hp, hm, hw, hs, ha, he, hr, successResult]

/-- Witness for the amended C7, applied to the ill-timed request. -/
theorem no_timing_validation_amended_witness :
    env7.videoFile = some ("movie.mp4") ∧
    (POST env7).response = .videoBytes ∧ (POST env7).execInvoked = true :=
  ⟨rfl, no_timing_validation_amended env7 ("movie.mp4")
    rfl rfl rfl rfl rfl rfl rfl rfl rfl rfl rfl⟩

/-- C8: evaluation at the failing input: a filename without an extension
stages the video as a file named input with no extension at all, because
the or-else default binds to the whole concatenation, which is never empty;
filenames with an extension keep it. -/
theorem staged_extension_default_bug :
    extname ("video") = "" ∧
    stagedVideoName ("video") = "input" ∧
    stagedVideoName ("video") ≠ "input.mp4" ∧
    stagedVideoName ("clip.mov") = "input.mov" ∧
    (POST { okEnv [] with videoFile := some ("video") }).stagedName
      = some ("input") := by
  refine ⟨rfl, rfl, by decide, rfl, rfl⟩

/-- C9 counterexample: a missing encoder binary and an encoder that exited
nonzero produce byte-identical error responses, so the two external failure
cases are not distinguishable by the caller. -/
theorem ffmpeg_failures_not_distinguished_counterexample :
    env9a.execError ≠ env9b.execError ∧
    (POST env9a).response = .jsonError ffmpegGuidanceMessage 500 ∧
    (POST env9b).response = .jsonError ffmpegGuidanceMessage 500 ∧
    (POST env9a).response = (POST env9b).response := by
  refine ⟨by decide, ?_, ?_, ?_⟩ <;> decide

/-- C9 amended: failures are split two ways, not three: bad input gets the
400 missing-data response, while every external-process failure whose
message mentions ffmpeg — missing binary and nonzero exit alike — gets one
identical fixed 500 response. -/
theorem error_taxonomy_amended :
    (∀ env : RenderEnv, ∀ file msg, env.videoFile = some file →
      env.subtitleStyleStr = true → env.segmentsStr = true →
      env.subtitlesEnabled = true → env.parseError = none →
      env.mkdirError = none → env.writeVideoError = none →
      env.writeSrtError = none → env.writeAssError = none →
      env.execError = some msg → jsIncludes msg ("ffmpeg") = true →
      (POST env).response = .jsonError ffmpegGuidanceMessage 500) ∧
    (∀ env : RenderEnv, env.videoFile = none →
      (POST env).response = .jsonError missingDataMessage 400) ∧
    (RouteResponse.jsonError ffmpegGuidanceMessage 500
      ≠ RouteResponse.jsonError missingDataMessage 400) := by
  refine ⟨?_, ?_, by decide⟩
  · intro env file msg hv h1 h2 h3 hp hm hw hs ha he hinc
    simp [POST, hv, h1, h2, h3, hp, hm, hw, hs, ha, he, catchResult, hinc]
  · intro env hv
    simp [POST, hv, missingDataResult]

/-- Witness for the amended C9: the missing-binary request yields the fixed
ffmpeg guidance response. -/
theorem error_taxonomy_amended_witness :
    jsIncludes binaryMissingMessage ("ffmpeg") = true ∧
    (POST env9a).response = .jsonError ffmpegGuidanceMessage 500 :=
  ⟨by decide, error_taxonomy_amended.1 env9a ("movie.mp4") binaryMissingMessage
    rfl rfl rfl rfl rfl rfl rfl rfl rfl rfl (by decide)⟩

/-- Segment whose text carries an internal line break. -/
def helloSeg : TranscriptionSegment where
  id := "segment-1"
  start := 0
  «end» := 1
  text := "Hello\nWorld"

/-- Replacement of a segment's text by its cleaned form. -/
def sanitizeSegment (seg : TranscriptionSegment) : TranscriptionSegment :=
  { seg with text := cleanText seg.text }

/-- Unfolding of the line-break replacement on a cons cell that does not
start a CRLF pair. -/
theorem replaceLineBreaks_cons_not_crlf (x : Char) (xs : List Char)
    (h : ∀ (rest : List Char), x = '\r' → xs = '\n' :: rest → False) :
    replaceLineBreaks (x :: xs) =
      if x = '\r' || x = '\n' then ' ' :: replaceLineBreaks xs
      else x :: replaceLineBreaks xs := by
  rw [replaceLineBreaks.eq_def]
  split
  · rename_i heq; cases heq
  · rename_i heq
    injection heq with h1 h2
    exact (h _ h1 h2).elim
  · rename_i x' xs' hne heq
    injection heq with h1 h2
    subst h1
    subst h2
    rfl

/-- The output of the line-break replacement contains no line break. -/
theorem replaceLineBreaks_no_break (l : List Char) :
    ∀ c ∈ replaceLineBreaks l, c ≠ '\r' ∧ c ≠ '\n' := by
  induction l using replaceLineBreaks.induct with
  | case1 => simp [replaceLineBreaks]
  | case2 rest ih =>
    intro c hc
    simp only [replaceLineBreaks, List.mem_cons] at hc
    rcases hc with h | h
    · subst h; exact ⟨by decide, by decide⟩
    · exact ih c h
  | case3 x xs hne hcond ih =>
    intro c hc
    rw [replaceLineBreaks_cons_not_crlf x xs hne, if_pos hcond] at hc
    rcases List.mem_cons.mp hc with h | h
    · subst h; exact ⟨by decide, by decide⟩
    · exact ih c h
  | case4 x xs hne hcond ih =>
    intro c hc
    rw [replaceLineBreaks_cons_not_crlf x xs hne, if_neg hcond] at hc
    rcases List.mem_cons.mp hc with h | h
    · subst h
      simp only [Bool.or_eq_true, decide_eq_true_eq, not_or] at hcond
      exact ⟨hcond.1, hcond.2⟩
    · exact ih c h

/-- The line-break replacement fixes lists without line breaks. -/
theorem replaceLineBreaks_eq_self (l : List Char)
    (h : ∀ c ∈ l, c ≠ '\r' ∧ c ≠ '\n') : replaceLineBreaks l = l := by
  induction l with
  | nil => rfl
  | cons a l ih =>
    have ha := h a (List.mem_cons_self a l)
    rw [replaceLineBreaks_cons_not_crlf a l (fun rest hr _ => ha.1 hr)]
    rw [if_neg (by simp [ha.1, ha.2])]
    rw [ih (fun c hc => h c (List.mem_cons_of_mem a hc))]

/-- A trimmed list has no leading whitespace left. -/
theorem dropWhile_of_trim (m : List Char) :
    (List.rdropWhile isJsWhitespace (m.dropWhile isJsWhitespace)).dropWhile
      isJsWhitespace
      = List.rdropWhile isJsWhitespace (m.dropWhile isJsWhitespace) := by
  rw [List.dropWhile_eq_self_iff]
  intro hl hp
  obtain ⟨r, hr⟩ := List.rdropWhile_prefix isJsWhitespace (m.dropWhile isJsWhitespace)
  have hl2 : 0 < (m.dropWhile isJsWhitespace).length := by
    rw [← hr, List.length_append]
    omega
  have hnot := List.dropWhile_get_zero_not isJsWhitespace m hl2
  apply hnot
  have hpre : List.rdropWhile isJsWhitespace (m.dropWhile isJsWhitespace)
      <+: m.dropWhile isJsWhitespace := ⟨r, hr⟩
  have hget := hpre.getElem hl
  simp only [List.get_eq_getElem]
  rw [← hget]
  simpa using hp

/-- Trimming both ends is idempotent. -/
theorem trim_idem (m : List Char) :
    List.rdropWhile isJsWhitespace
        ((List.rdropWhile isJsWhitespace (m.dropWhile isJsWhitespace)).dropWhile
          isJsWhitespace)
      = List.rdropWhile isJsWhitespace (m.dropWhile isJsWhitespace) := by
  rw [dropWhile_of_trim]
  exact List.rdropWhile_idempotent isJsWhitespace _

/-- The text cleaning of the encoders is idempotent. -/
theorem cleanText_idem (s : String) : cleanText (cleanText s) = cleanText s := by
  have hsub : ∀ c ∈ List.rdropWhile isJsWhitespace
      (List.dropWhile isJsWhitespace (replaceLineBreaks s.data)),
      c ≠ '\r' ∧ c ≠ '\n' := fun c hc =>
    replaceLineBreaks_no_break s.data c
      ((List.dropWhile_suffix isJsWhitespace).subset
        (( List.rdropWhile_prefix isJsWhitespace _).subset hc))
  unfold cleanText jsTrim
  congr 1
  rw [show replaceLineBreaks (String.mk (List.rdropWhile isJsWhitespace
      (List.dropWhile isJsWhitespace (replaceLineBreaks s.data)))).data
      = List.rdropWhile isJsWhitespace
        (List.dropWhile isJsWhitespace (replaceLineBreaks s.data)) from
    replaceLineBreaks_eq_self _ hsub]
  exact trim_idem (replaceLineBreaks s.data)

/-- Indexed map over a mapped list. -/
theorem mapWithIndex_map (f : Nat → β → γ) (g : α → β) (i : Nat) (l : List α) :
    mapWithIndex f i (l.map g) = mapWithIndex (fun j a => f j (g a)) i l := by
  induction l generalizing i with
  | nil => rfl
  | cons a l ih => simp only [List.map_cons, mapWithIndex, ih]

/-- Pointwise congruence for the indexed map. -/
theorem mapWithIndex_congr {f g : Nat → α → β} (h : ∀ i a, f i a = g i a)
    (i : Nat) (l : List α) : mapWithIndex f i l = mapWithIndex g i l := by
  induction l generalizing i with
  | nil => rfl
  | cons a l ih => simp only [mapWithIndex, h, ih]

/-- C3 counterexample: the VTT encoder does not sanitize: the segment text
Hello-newline-World is emitted verbatim, the cue text is not the collapsed
Hello World, and encoding the already-sanitized text gives a different
document. -/
theorem vtt_not_sanitized_counterexample :
    generateVTTContent [helloSeg]
      = "WEBVTT\n\n00:00:00.000 --> 00:00:01.000\nHello\nWorld\n" ∧
    containsSub ("Hello World").data (generateVTTContent [helloSeg]).data
      = false ∧
    generateVTTContent [helloSeg]
      ≠ generateVTTContent [sanitizeSegment helloSeg] := by
  have h : generateVTTContent [helloSeg]
      = "WEBVTT\n\n00:00:00.000 --> 00:00:01.000\nHello\nWorld\n" := by
    simp only [generateVTTContent, List.map, formatVTTTime, jsFmod, jsTrunc,
      helloSeg]
    norm_num
    decide
  have h2 : generateVTTContent [sanitizeSegment helloSeg]
      = "WEBVTT\n\n00:00:00.000 --> 00:00:01.000\nHello World\n" := by
    simp only [generateVTTContent, List.map, formatVTTTime, jsFmod, jsTrunc,
      sanitizeSegment, helloSeg]
    norm_num
    decide
  refine ⟨h, by rw [h]; decide, by rw [h, h2]; decide⟩

/-- C3 amended: the SRT and ASS encoders collapse internal line breaks to a
single space and trim before emitting cue text, idempotently (re-encoding
sanitized segments reproduces the document); the VTT encoder emits the
segment text verbatim, so the claim's example produces the collapsed cue
text in SRT and ASS but not in VTT. -/
theorem text_sanitization_amended :
    (∀ s : String, cleanText (cleanText s) = cleanText s) ∧
    (∀ l : List TranscriptionSegment,
      generateSRTContent (l.map sanitizeSegment) = generateSRTContent l) ∧
    (∀ (l : List TranscriptionSegment) (st : SubtitleStyle),
      generateASSContent (l.map sanitizeSegment) st = generateASSContent l st) ∧
    cleanText ("Hello\nWorld") = "Hello World" ∧
    generateSRTContent [helloSeg]
      = "1\n00:00:00,000 --> 00:00:01,000\nHello World\n" ∧
    assDialogueLine defaultStyle helloSeg
      = "Dialogue: 0,0:00:00.00,0:00:01.00,Default,,0,0,0,,Hello World" ∧
    generateVTTContent [helloSeg]
      ≠ "WEBVTT\n\n00:00:00.000 --> 00:00:01.000\nHello World\n" := by
  refine ⟨cleanText_idem, ?_, ?_, by decide, ?_, ?_, ?_⟩
  · intro l
    unfold generateSRTContent
    rw [mapWithIndex_map]
    congr 1
    apply mapWithIndex_congr
    intro i seg
    simp only [sanitizeSegment]
    rw [cleanText_idem]
  · intro l st
    unfold generateASSContent
    congr 1
    unfold assEvents
    rw [List.map_map]
    have hfun : assDialogueLine st ∘ sanitizeSegment = assDialogueLine st := by
      funext seg
      simp only [Function.comp, assDialogueLine, sanitizeSegment]
      rw [cleanText_idem]
    rw [hfun]
  · simp only [generateSRTContent, mapWithIndex, formatSRTTime, jsFmod, jsTrunc,
      helloSeg]
    norm_num
    decide
  · simp only [assDialogueLine, formatASSTime, jsFmod, jsTrunc, helloSeg]
    norm_num
    decide
  · simp only [generateVTTContent, List.map, formatVTTTime, jsFmod, jsTrunc,
      helloSeg]
    norm_num
    decide

/-- Style with the background suppressed and full opacity. -/
def noBgStyle : SubtitleStyle := { defaultStyle with noBackground := true, opacity := 1 }

/-- Style with custom positioning enabled (x 50, y 90 from the default). -/
def cpStyle : SubtitleStyle := { defaultStyle with customPosition := true }

/-- Segment used for the custom-position dialogue example. -/
def posSeg : TranscriptionSegment where
  id := "segment-2"
  start := 3 / 2
  «end» := 13 / 4
  text := "Hi"

/-- Style carrying malformed color strings. -/
def badStyle : SubtitleStyle :=
  { defaultStyle with color := "#XYZ", backgroundColor := "#12", noBackground := true }

/-- C4 counterexample: with noBackground set, the background alpha is
forced to FF even though the opacity is 1, whose round((1 - opacity)·255)
encoding would be 00. -/
theorem background_alpha_counterexample :
    noBgStyle.noBackground = true ∧ noBgStyle.opacity = 1 ∧
    bgAlphaHex noBgStyle = "FF" ∧
    jsToUpper (padStart (jsToHexString (jsRound ((1 - noBgStyle.opacity) * 255))) 2 '0')
      = "00" ∧
    bgAlphaHex noBgStyle
      ≠ jsToUpper (padStart (jsToHexString
          (jsRound ((1 - noBgStyle.opacity) * 255))) 2 '0') := by
  have h4 : jsToUpper (padStart (jsToHexString
      (jsRound ((1 - noBgStyle.opacity) * 255))) 2 '0') = "00" := by
    simp only [noBgStyle, defaultStyle, jsRound]
    norm_num
    decide
  refine ⟨rfl, rfl, rfl, h4, ?_⟩
  rw [h4]
  decide

/-- C4 amended: the color converter emits alpha-blue-green-red tags, the
text color always uses alpha 00, and for styles with noBackground false the
background alpha is round((1 − opacity)·255) in 2-digit uppercase hex
(when noBackground is true it is forced to FF instead); the claimed
concrete conversions hold for the default style. -/
theorem color_conversion_amended :
    (∀ (alpha : String) (a₁ a₂ b₁ b₂ c₁ c₂ : Char),
      convertColorToASS (String.mk ['#', a₁, a₂, b₁, b₂, c₁, c₂]) alpha
        = "&H" ++ alpha ++ String.mk [c₁, c₂] ++ String.mk [b₁, b₂]
            ++ String.mk [a₁, a₂]) ∧
    (∀ st : SubtitleStyle, textColor st = convertColorToASS st.color ("00")) ∧
    (∀ st : SubtitleStyle, st.noBackground = false →
      bgAlphaHex st
        = jsToUpper (padStart (jsToHexString
            (jsRound ((1 - st.opacity) * 255))) 2 '0')) ∧
    convertColorToASS ("#FFFFFF") ("00") = "&H00FFFFFF" ∧
    jsRound ((1 - (7 : ℚ) / 10) * 255) = 77 ∧
    bgAlphaHex defaultStyle = "4D" ∧
    shadowColor defaultStyle = "&H4D000000" := by
  have h6 : bgAlphaHex defaultStyle = "4D" := by
    simp only [bgAlphaHex, defaultStyle, jsRound]
    norm_num
    decide
  refine ⟨fun alpha a₁ a₂ b₁ b₂ c₁ c₂ => rfl, fun st => rfl, ?_, by decide, ?_, h6, ?_⟩
  · intro st h
    simp only [bgAlphaHex, h]
    rfl
  · simp only [jsRound]
    norm_num
  · simp only [shadowColor]
    rw [h6]
    decide

/-- Witness for the amended C4: the background-alpha formula applied to the
default style, whose noBackground flag is off. -/
theorem color_conversion_amended_witness :
    defaultStyle.noBackground = false ∧
    bgAlphaHex defaultStyle
      = jsToUpper (padStart (jsToHexString
          (jsRound ((1 - defaultStyle.opacity) * 255))) 2 '0') :=
  ⟨rfl, color_conversion_amended.2.2.1 defaultStyle rfl⟩

/-- C5: noBackground selects the outline border style with a fixed small
outline and a 1-unit shadow and a fully transparent background alpha, never
the opaque box; with a background, the opaque box is selected with outline
max(1, round(fontSize·0.075)) and no shadow. -/
theorem noBackground_border_selection (st : SubtitleStyle) :
    (st.noBackground = true →
      bgAlphaHex st = "FF" ∧ borderStyle st = "1" ∧ outlineSize st = "1" ∧
      shadowSize st = "1" ∧ borderStyle st ≠ "3") ∧
    (st.noBackground = false →
      borderStyle st = "3" ∧ shadowSize st = "0" ∧
      outlineSize st
        = toString (max 1 (jsRound ((st.fontSize : ℚ) * (75 / 1000))))) := by
  constructor <;> intro h <;>
    simp [bgAlphaHex, borderStyle, outlineSize, shadowSize, h]

/-- Witness for C5: the selection evaluated on the style with noBackground
set. -/
theorem noBackground_border_selection_witness :
    noBgStyle.noBackground = true ∧ bgAlphaHex noBgStyle = "FF" ∧
    borderStyle noBgStyle = "1" ∧ outlineSize noBgStyle = "1" ∧
    shadowSize noBgStyle = "1" ∧ borderStyle noBgStyle ≠ "3" :=
  have h := (noBackground_border_selection noBgStyle).1 rfl
  ⟨rfl, h.1, h.2.1, h.2.2.1, h.2.2.2.1, h.2.2.2.2⟩

/-- C6: with customPosition on, every dialogue event carries the inline
override built from the rounded percentage coordinates against the
1280x720 canvas together with the both-axes-centered anchor tag, and the
default 50/90 position resolves to pixel (640, 648). -/
theorem custom_position_override :
    (∀ st : SubtitleStyle, st.customPosition = true →
      styleOverrideString st
        = "\x7b" ++ (if st.noBackground then "\\shad1" else "") ++ "\\pos("
            ++ toString (jsRound (st.xPosition / 100 * 1280)) ++ ","
            ++ toString (jsRound (st.yPosition / 100 * 720)) ++ ")" ++ "\\an5"
            ++ "\x7d") ∧
    (∀ (st : SubtitleStyle) (seg : TranscriptionSegment),
      assDialogueLine st seg
        = "Dialogue: 0," ++ formatASSTime seg.start ++ ","
            ++ formatASSTime seg.«end» ++ ",Default,,0,0,0,,"
            ++ styleOverrideString st ++ cleanText seg.text) ∧
    xPosOf cpStyle = 640 ∧ yPosOf cpStyle = 648 ∧
    styleOverrideString cpStyle = "\x7b\\pos(640,648)\\an5\x7d" ∧
    assDialogueLine cpStyle posSeg
      = "Dialogue: 0,0:00:01.50,0:00:03.25,Default,,0,0,0,,\x7b\\pos(640,648)\\an5\x7dHi" := by
  have hx : ∀ st : SubtitleStyle, xPosOf st = jsRound (st.xPosition / 100 * 1280) := by
    intro st
    unfold xPosOf videoWidth
    norm_num
  have hy : ∀ st : SubtitleStyle, yPosOf st = jsRound (st.yPosition / 100 * 720) := by
    intro st
    unfold yPosOf videoHeight
    norm_num
  have hx6 : xPosOf cpStyle = 640 := by
    simp only [xPosOf, videoWidth, cpStyle, defaultStyle, jsRound]
    norm_num
  have hy6 : yPosOf cpStyle = 648 := by
    simp only [yPosOf, videoHeight, cpStyle, defaultStyle, jsRound]
    norm_num
  have hso : styleOverrideString cpStyle = "\x7b\\pos(640,648)\\an5\x7d" := by
    have hcp : cpStyle.customPosition = true := rfl
    have hnb : cpStyle.noBackground = false := rfl
    simp only [styleOverrideString, styleOverrides, hx6, hy6, hcp, hnb]
    decide
  refine ⟨?_, fun st seg => rfl, hx6, hy6, hso, ?_⟩
  · intro st h
    unfold styleOverrideString styleOverrides
    rw [h]
    cases hnb : st.noBackground
    · simp only [hnb, if_false, if_true, List.nil_append, Bool.false_eq_true,
        List.length_cons, String.join, List.foldl]
      rw [if_pos (by simp)]
      apply String.ext
      simp [String.data_append, hx st, hy st, List.append_assoc]
    · simp only [hnb, if_false, if_true, List.cons_append, List.nil_append,
        List.length_cons, String.join, List.foldl]
      rw [if_pos (by simp)]
      apply String.ext
      simp [String.data_append, hx st, hy st, List.append_assoc]
  · simp only [assDialogueLine, posSeg, formatASSTime, jsFmod, jsTrunc, hso]
    norm_num
    decide

/-- Witness for C6: the override equation applied to the custom-position
style. -/
theorem custom_position_override_witness :
    cpStyle.customPosition = true ∧
    styleOverrideString cpStyle
      = "\x7b" ++ (if cpStyle.noBackground then "\\shad1" else "") ++ "\\pos("
          ++ toString (jsRound (cpStyle.xPosition / 100 * 1280)) ++ ","
          ++ toString (jsRound (cpStyle.yPosition / 100 * 720)) ++ ")" ++ "\\an5"
          ++ "\x7d" :=
  ⟨rfl, custom_position_override.1 cpStyle rfl⟩

set_option maxRecDepth 8000 in
/-- C10: the color converter performs no hex validation: for every input
string the emitted tag is the alpha followed by the three verbatim slices
of the input with its first hash removed, and a malformed color flows
verbatim into the markup generated by the ASS encoder, which returns
normally. -/
theorem malformed_color_no_validation :
    (∀ cssHex alpha : String,
      convertColorToASS cssHex alpha
        = "&H" ++ alpha
            ++ String.mk (((removeFirst '#' cssHex.data).take 6).drop 4)
            ++ String.mk (((removeFirst '#' cssHex.data).take 4).drop 2)
            ++ String.mk (((removeFirst '#' cssHex.data).take 2).drop 0)) ∧
    convertColorToASS ("#XYZ") ("00") = "&H00ZXY" ∧
    textColor badStyle = "&H00ZXY" ∧
    containsSub (textColor badStyle).data (generateASSContent [] badStyle).data
      = true := by
  refine ⟨fun cssHex alpha => rfl, by decide, by decide, by decide⟩

end VideoToText
